import Mathlib

/-!
Verification development for the comic-archive conversion pipeline
(convert-comics_v3.py). The Python source is shallowly embedded: pure
string/path computations become Lean functions over character lists, and
the per-task control flow of process_file / convert_to_cbz becomes a
function from an environment (recording which fallible archive operations
succeed) to the observable effects of the task (counter increments,
quarantine copies, scratch-directory state, which validators ran).
-/

namespace ComicsConv

/-! ### Filename-encoding repair (safe_extract, lines 124-135)

The Python code runs, for each archive entry name:
  try: filename = info.filename.encode(cp437).decode(utf-8)
  except UnicodeEncodeError: filename = info.filename
  except UnicodeDecodeError: filename = info.filename.encode(cp437).decode(cp437)
Encoding to cp437 is partial (raises for characters outside the code page);
decoding bytes as cp437 is total (every byte is mapped). Strings are
embedded as lists of characters, byte strings as lists of naturals. -/

/-- Unicode code points of cp437 bytes 128..255, in byte order (bytes
0..127 decode as themselves, i.e. as ASCII). -/
def cp437HighCodes : List Nat :=
  [0xC7, 0xFC, 0xE9, 0xE2, 0xE4, 0xE0, 0xE5, 0xE7,
   0xEA, 0xEB, 0xE8, 0xEF, 0xEE, 0xEC, 0xC4, 0xC5,
   0xC9, 0xE6, 0xC6, 0xF4, 0xF6, 0xF2, 0xFB, 0xF9,
   0xFF, 0xD6, 0xDC, 0xA2, 0xA3, 0xA5, 0x20A7, 0x192,
   0xE1, 0xED, 0xF3, 0xFA, 0xF1, 0xD1, 0xAA, 0xBA,
   0xBF, 0x2310, 0xAC, 0xBD, 0xBC, 0xA1, 0xAB, 0xBB,
   0x2591, 0x2592, 0x2593, 0x2502, 0x2524, 0x2561, 0x2562, 0x2556,
   0x2555, 0x2563, 0x2551, 0x2557, 0x255D, 0x255C, 0x255B, 0x2510,
   0x2514, 0x2534, 0x252C, 0x251C, 0x2500, 0x253C, 0x255E, 0x255F,
   0x255A, 0x2554, 0x2569, 0x2566, 0x2560, 0x2550, 0x256C, 0x2567,
   0x2568, 0x2564, 0x2565, 0x2559, 0x2558, 0x2552, 0x2553, 0x256B,
   0x256A, 0x2518, 0x250C, 0x2588, 0x2584, 0x258C, 0x2590, 0x2580,
   0x3B1, 0xDF, 0x393, 0x3C0, 0x3A3, 0x3C3, 0xB5, 0x3C4,
   0x3A6, 0x398, 0x3A9, 0x3B4, 0x221E, 0x3C6, 0x3B5, 0x2229,
   0x2261, 0xB1, 0x2265, 0x2264, 0x2320, 0x2321, 0xF7, 0x2248,
   0xB0, 0x2219, 0xB7, 0x221A, 0x207F, 0xB2, 0x25A0, 0xA0]

/-- Decode a single byte under cp437; total, since cp437 assigns a code
point to every byte (this is why the decode-cp437 fallback in the source
can never raise). -/
def cp437DecodeByte (b : Nat) : Char :=
  Char.ofNat (if b < 128 then b else cp437HighCodes.getD (b - 128) 0)

/-- Encode a single character under cp437: the partial inverse of
`cp437DecodeByte`, searching the 256-entry table; `none` models the
UnicodeEncodeError raised by str.encode(cp437). -/
def cp437EncodeChar (c : Char) : Option Nat :=
  (List.range 256).find? (fun b => cp437DecodeByte b == c)

/-- Encode a whole string (character list) under cp437; fails if any
character fails, exactly as str.encode does. -/
def cp437EncodeStr : List Char → Option (List Nat)
  | [] => some []
  | c :: cs =>
    match cp437EncodeChar c, cp437EncodeStr cs with
    | some b, some bs => some (b :: bs)
    | _, _ => none

/-- Decode a byte string under cp437 (total). -/
def cp437DecodeStr (bs : List Nat) : List Char :=
  bs.map cp437DecodeByte

/-- Strict UTF-8 decoding of a byte list to code points, mirroring
bytes.decode(utf-8): rejects stray continuation bytes, truncated or
over-long sequences, surrogates and code points above 0x10FFFF; `none`
models UnicodeDecodeError. -/
def utf8DecodeCodes : List Nat → Option (List Nat)
  | [] => some []
  | b :: bs =>
    if b < 0x80 then
      (utf8DecodeCodes bs).map (b :: ·)
    else if b < 0xC2 then
      none
    else if b < 0xE0 then
      match bs with
      | b1 :: bs1 =>
        if 0x80 ≤ b1 && b1 < 0xC0 then
          (utf8DecodeCodes bs1).map (((b - 0xC0) * 64 + (b1 - 0x80)) :: ·)
        else none
      | [] => none
    else if b < 0xF0 then
      match bs with
      | b1 :: b2 :: bs2 =>
        if 0x80 ≤ b1 && b1 < 0xC0 && 0x80 ≤ b2 && b2 < 0xC0 then
          let cp := (b - 0xE0) * 4096 + (b1 - 0x80) * 64 + (b2 - 0x80)
          if cp < 0x800 || (0xD800 ≤ cp && cp < 0xE000) then none
          else (utf8DecodeCodes bs2).map (cp :: ·)
        else none
      | _ => none
    else if b < 0xF5 then
      match bs with
      | b1 :: b2 :: b3 :: bs3 =>
        if 0x80 ≤ b1 && b1 < 0xC0 && 0x80 ≤ b2 && b2 < 0xC0 &&
            0x80 ≤ b3 && b3 < 0xC0 then
          let cp := (b - 0xF0) * 262144 + (b1 - 0x80) * 4096 +
            (b2 - 0x80) * 64 + (b3 - 0x80)
          if cp < 0x10000 || 0x10FFFF < cp then none
          else (utf8DecodeCodes bs3).map (cp :: ·)
        else none
      | _ => none
    else none

/-- UTF-8 decoding to characters. -/
def utf8DecodeChars (bs : List Nat) : Option (List Char) :=
  (utf8DecodeCodes bs).map (fun cs => cs.map Char.ofNat)

/-- Embeds the filename-repair block of safe_extract (lines 126-135):
try the UTF-8 reinterpretation of the cp437 re-encoding of the stored
name; on UnicodeEncodeError keep the stored name; on UnicodeDecodeError
re-encode and re-decode under cp437. -/
def repairFilename (stored : List Char) : List Char :=
  match cp437EncodeStr stored with
  | none => stored
  | some bytes =>
    match utf8DecodeChars bytes with
    | some s => s
    | none => cp437DecodeStr bytes

/-! ### Path model (pathlib subset used by safe_extract, lines 137-148)

pathlib.Path keeps paths as a sequence of components: parsing a string
collapses repeated slashes and single-dot components but keeps double-dot
components; Path.absolute() prefixes the working directory WITHOUT
normalising (it does not collapse double-dot components); the / operator
discards the left operand when the right operand is absolute. The string
form joins components with slashes. -/

/-- Split a character list on slash characters (accumulator holds the
current component reversed). -/
def splitOnSlash : List Char → List Char → List (List Char)
  | [], acc => [acc.reverse]
  | c :: cs, acc =>
    if c = '/' then acc.reverse :: splitOnSlash cs []
    else splitOnSlash cs (c :: acc)

/-- Raw slash-separated components of a string. -/
def rawComponents (s : String) : List String :=
  (splitOnSlash s.data []).map String.mk

/-- A pathlib-style path: an absolute flag plus components (pathlib drops
empty and single-dot components at construction, keeps double-dot ones). -/
structure PyPath where
  isAbs : Bool
  parts : List String
  deriving DecidableEq

/-- Parse a string into a PyPath, as pathlib.Path(s) does. -/
def parsePath (s : String) : PyPath :=
  { isAbs := match s.data with | '/' :: _ => true | _ => false,
    parts := (rawComponents s).filter (fun c => !(c = "" || c = ".")) }

/-- The / operator of pathlib: an absolute right operand replaces the
left operand entirely; otherwise components are appended. -/
def pyJoin (base : PyPath) (name : String) : PyPath :=
  let p := parsePath name
  if p.isAbs then p else { isAbs := base.isAbs, parts := base.parts ++ p.parts }

/-- Join components with slashes. -/
def slashJoin : List String → String
  | [] => ""
  | [p] => p
  | p :: ps => p ++ "/" ++ slashJoin ps

/-- str() of a PyPath. -/
def pyStr (p : PyPath) : String :=
  if p.isAbs then "/" ++ slashJoin p.parts
  else if p.parts = [] then "." else slashJoin p.parts

/-- Path.absolute(): prefix the working directory if relative; performs
no normalisation, so double-dot components survive. -/
def pyAbsolute (cwd : PyPath) (p : PyPath) : PyPath :=
  if p.isAbs then p else { isAbs := cwd.isAbs, parts := cwd.parts ++ p.parts }

/-- str.startswith, i.e. character-list prefix. -/
def pyStartsWith (s pre : String) : Bool :=
  List.isPrefixOf pre.data s.data

/-- The candidate extraction target computed by safe_extract (line 138):
the scratch directory joined with the encoding-repaired stored name. -/
def storedEntryTarget (tempDir : String) (stored : List Char) : PyPath :=
  pyJoin (parsePath tempDir) (String.mk (repairFilename stored))

/-- The containment guard of safe_extract (line 141):
str(target_path.absolute()).startswith(str(Path(temp_dir).absolute())). -/
def extractGuardAccepts (cwd : PyPath) (tempDir : String) (stored : List Char) : Bool :=
  pyStartsWith (pyStr (pyAbsolute cwd (storedEntryTarget tempDir stored)))
    (pyStr (pyAbsolute cwd (parsePath tempDir)))

/-- Resolve double-dot components against their parent (what the claim
means by the path an entry name resolves to). -/
def resolveParts (ps : List String) : List String :=
  ps.foldl (fun acc c => if c = ".." then acc.dropLast else acc ++ [c]) []

/-- Whether, after resolving double-dot components, the target lies at or
below the base directory. -/
def isDescendantOf (target base : PyPath) : Bool :=
  List.isPrefixOf (resolveParts base.parts) (resolveParts target.parts) &&
    (target.isAbs == base.isAbs)

/-- Entry-name sanitisation performed by the archive library when
safe_extract calls archive.extract(info, temp_dir) at line 148: the
library derives the written path from the UNREPAIRED stored name,
dropping empty, single-dot and double-dot components (known collaborator
semantics of zipfile.ZipFile.extract). -/
def libraryExtractParts (stored : List Char) : List String :=
  ((splitOnSlash stored []).map String.mk).filter
    (fun c => !(c = "" || c = "." || c = ".."))

/-- The path the archive library writes an entry to (scratch directory
joined with the sanitised unrepaired stored name). -/
def libraryExtractTarget (tempDir : String) (stored : List Char) : PyPath :=
  { isAbs := (parsePath tempDir).isAbs,
    parts := (parsePath tempDir).parts ++ libraryExtractParts stored }

/-! ### Per-task control flow (process_file, lines 225-245; convert_to_cbz,
lines 154-223)

A task runs against an environment recording the outcome of each fallible
archive operation the source distinguishes: the two validators, RAR and
ZIP extraction, the repack step, and whether the quarantine copy would
succeed if invoked (shutil.copy2 opens the source for reading, so it
raises IsADirectoryError for a directory that planning admitted and
PermissionError for an unreadable regular source, and can also fail on
the destination side). Directory creation and scratch removal are taken
to succeed. The observable effects are the counter increments (performed
under the shared lock in the source, so the final counter values are the
sums of the per-task increments), the destination archive, the quarantine
copy, the scratch-directory state after the call, how often each
validator ran, and the returned value (none when an exception escaped the
function, to be caught at the worker-pool boundary). -/

/-- Declared format of a planned task, from the lower-cased file
extension (planning only admits these two). -/
inductive DeclaredExt
  | cbz
  | cbr
  deriving DecidableEq, Fintype

/-- Outcomes of the fallible operations of one task. copyOk records
whether shutil.copy2 of the source to the quarantine path succeeds when
it is invoked: it fails for a non-regular source (IsADirectoryError), for
an unreadable regular source (PermissionError), or when the destination
side fails. -/
structure Env where
  validZip : Bool
  validRar : Bool
  rarExtractOk : Bool
  zipExtractOk : Bool
  repackOk : Bool
  copyOk : Bool
  deriving DecidableEq, Fintype

/-- Observable effects of a convert_to_cbz call. tempExists records
whether the scratch directory exists when the call ends (the body value,
before the finally clause, for the staged definitions below). -/
structure ConvEffects where
  retval : Option Bool
  converted : Nat
  failed : Nat
  destWritten : Bool
  quarantineWritten : Bool
  tempExists : Bool
  zipChecks : Nat
  deriving DecidableEq

/-- The repack stage (lines 200-213): write the uncompressed destination
archive and count converted, or on failure copy the source to quarantine
(no scratch removal in this handler; the finally clause removes it) and
count failed; when the quarantine copy raises (non-regular or unreadable
source), the outer handler (lines 214-219) re-raises on its own copy, and
the exception escapes with no counter update. -/
def repackStage (env : Env) (zc : Nat) : ConvEffects :=
  if env.repackOk then
    { retval := some true, converted := 1, failed := 0, destWritten := true,
      quarantineWritten := false, tempExists := true, zipChecks := zc }
  else if env.copyOk then
    { retval := some false, converted := 0, failed := 1, destWritten := false,
      quarantineWritten := false, tempExists := true, zipChecks := zc }
  else
    { retval := none, converted := 0, failed := 0, destWritten := false,
      quarantineWritten := false, tempExists := true, zipChecks := zc }

/-- The extraction-failure handlers (lines 178-185 and 190-197): copy the
source to quarantine, remove the scratch directory, count failed and
return false; when the copy raises (non-regular or unreadable source),
the outer handler raises again on its own copy, and the exception escapes
with the scratch directory still present (until the finally clause). -/
def extractFailQuarantine (env : Env) (zc : Nat) : ConvEffects :=
  if env.copyOk then
    { retval := some false, converted := 0, failed := 1, destWritten := false,
      quarantineWritten := true, tempExists := false, zipChecks := zc }
  else
    { retval := none, converted := 0, failed := 0, destWritten := false,
      quarantineWritten := false, tempExists := true, zipChecks := zc }

/-- The try body of convert_to_cbz (lines 162-213): extract under the
declared format; for a CBR-declared source whose RAR extraction fails,
check ZIP validity and retry extraction as ZIP (lines 171-177); then
repack. -/
def convertBody (env : Env) : DeclaredExt → ConvEffects
  | .cbr =>
    if env.rarExtractOk then repackStage env 0
    else if env.validZip then
      if env.zipExtractOk then repackStage env 1
      else extractFailQuarantine env 1
    else extractFailQuarantine env 1
  | .cbz =>
    if env.zipExtractOk then repackStage env 0
    else extractFailQuarantine env 0

/-- convert_to_cbz (lines 154-223): the try body followed by the finally
clause (lines 220-223), which removes the scratch directory whenever it
still exists, on every exit path including an escaping exception. -/
def convert_to_cbz (env : Env) (ext : DeclaredExt) : ConvEffects :=
  let body := convertBody env ext
  { body with tempExists := false }

/-- Observable effects of a process_file call, including the processed
counter, both validator invocation counts and whether convert_to_cbz was
reached. -/
structure TaskOutcome where
  retval : Option Bool
  processed : Nat
  converted : Nat
  failed : Nat
  destWritten : Bool
  quarantineWritten : Bool
  tempExists : Bool
  zipChecks : Nat
  rarChecks : Nat
  convertCalled : Bool
  deriving DecidableEq

/-- Lift the effects of convert_to_cbz into a task outcome, adding the
validator calls made before conversion started. -/
def taskOfConv (c : ConvEffects) (rarChecksPre zipChecksPre : Nat) : TaskOutcome :=
  { retval := c.retval, processed := 1, converted := c.converted,
    failed := c.failed, destWritten := c.destWritten,
    quarantineWritten := c.quarantineWritten, tempExists := c.tempExists,
    zipChecks := zipChecksPre + c.zipChecks, rarChecks := rarChecksPre,
    convertCalled := true }

/-- The validation-failure branch of process_file (lines 232-236 and
238-243): copy the source to quarantine and count failed; when the copy
raises (a directory admitted by planning, or an unreadable regular file)
process_file has no handler, so the exception escapes to the pool
boundary with no failed increment. No scratch directory was created. -/
def preValidationFail (env : Env) (rarChecksPre zipChecksPre : Nat) : TaskOutcome :=
  if env.copyOk then
    { retval := some false, processed := 1, converted := 0, failed := 1,
      destWritten := false, quarantineWritten := true, tempExists := false,
      zipChecks := zipChecksPre, rarChecks := rarChecksPre, convertCalled := false }
  else
    { retval := none, processed := 1, converted := 0, failed := 0,
      destWritten := false, quarantineWritten := false, tempExists := false,
      zipChecks := zipChecksPre, rarChecks := rarChecksPre, convertCalled := false }

/-- process_file (lines 225-245): count processed, validate under the
declared format — a CBZ-declared source failing ZIP validation is
quarantined at once, a CBR-declared source failing RAR validation is
probed as ZIP and quarantined only if that also fails — then convert. -/
def process_file (env : Env) : DeclaredExt → TaskOutcome
  | .cbz =>
    if env.validZip then taskOfConv (convert_to_cbz env .cbz) 0 1
    else preValidationFail env 0 1
  | .cbr =>
    if env.validRar then taskOfConv (convert_to_cbz env .cbr) 1 0
    else if env.validZip then taskOfConv (convert_to_cbz env .cbr) 1 1
    else preValidationFail env 1 1

/-- Total of the processed counter over a batch: every increment runs
under the shared lock (lines 89-96), so the final counter value is the
sum of per-task increments. -/
def batchProcessed (tasks : List (Env × DeclaredExt)) : Nat :=
  (tasks.map (fun t => (process_file t.1 t.2).processed)).sum

/-- Total of the converted counter over a batch. -/
def batchConverted (tasks : List (Env × DeclaredExt)) : Nat :=
  (tasks.map (fun t => (process_file t.1 t.2).converted)).sum

/-- Total of the failed counter over a batch. -/
def batchFailed (tasks : List (Env × DeclaredExt)) : Nat :=
  (tasks.map (fun t => (process_file t.1 t.2).failed)).sum

/-! ### Planning (process_files, lines 247-262)

The input tree is abstracted as a root (existence and directory flags)
plus the entries rglob would enumerate below a readable directory root,
each carrying its path components relative to the root, its kind and a
readability flag. Known collaborator semantics of pathlib.Path.rglob: it
yields files AND directories, and when the root does not exist or is not
a directory its selector returns an empty iterator rather than raising,
so planning silently produces no tasks. -/

/-- Kind of a filesystem entry yielded by rglob. -/
inductive EntryKind
  | file
  | dir
  | other
  deriving DecidableEq

/-- An entry under the input root. -/
structure FSEntry where
  relParts : List String
  kind : EntryKind
  readable : Bool
  deriving DecidableEq

/-- The input tree. -/
structure InputFS where
  rootExists : Bool
  rootIsDir : Bool
  entries : List FSEntry
  deriving DecidableEq

/-- Final path component of an entry (pathlib name). -/
def entryName (e : FSEntry) : String :=
  e.relParts.getLastD ""

/-- Characters of the reversed name before the first dot of the reversed
name, i.e. after the LAST dot of the name; none when the name has no dot. -/
def revTakeUntilDot : List Char → Option (List Char)
  | [] => none
  | c :: cs => if c = '.' then some [] else (revTakeUntilDot cs).map (c :: ·)

/-- pathlib suffix: the part of the name from its last dot on, empty when
the last dot is the first character, the last character, or absent. -/
def suffixOf (cs : List Char) : List Char :=
  match revTakeUntilDot cs.reverse with
  | none => []
  | some afterRev =>
    if afterRev.length != 0 && afterRev.length + 1 < cs.length then
      '.' :: afterRev.reverse
    else []

/-- pathlib stem: the name with its suffix removed. -/
def stemOf (cs : List Char) : List Char :=
  cs.take (cs.length - (suffixOf cs).length)

/-- ASCII lower-casing of one character (str.lower restricted to ASCII,
which is all the recognised-extension comparison can distinguish). -/
def pyLowerChar (c : Char) : Char :=
  if 'A' ≤ c && c ≤ 'Z' then Char.ofNat (c.toNat + 32) else c

/-- The planning filter (line 256): the lower-cased suffix is one of the
two recognised archive extensions. -/
def recognizedSuffix (name : String) : Bool :=
  let s := String.mk ((suffixOf name.data).map pyLowerChar)
  s == ".cbz" || s == ".cbr"

/-- A planned task triple as built at line 262 (source components plus
the stringified destination file and quarantine paths). -/
structure PlannedTask where
  srcParts : List String
  destFileStr : String
  failedPathStr : String
  deriving DecidableEq

/-- Append path components to a root string with slashes, as str() of
root / c1 / c2 ... renders. -/
def joinParts (root : String) (ps : List String) : String :=
  ps.foldl (fun a c => a ++ "/" ++ c) root

/-- Build the planned task for one entry (lines 257-262): destination is
the output root, the relative parent, and the stem with the normalised
extension; quarantine mirrors the full relative path under _failed. -/
def mkTask (out : String) (e : FSEntry) : PlannedTask :=
  { srcParts := e.relParts,
    destFileStr := joinParts out (e.relParts.dropLast ++
      [String.mk (stemOf (entryName e).data) ++ ".cbz"]),
    failedPathStr := joinParts out ("_failed" :: e.relParts) }

/-- The planning phase (lines 253-262): when the root is missing or not a
directory, rglob yields nothing and no task is planned (and no error is
raised); otherwise every enumerated entry whose lower-cased suffix is
recognised becomes a task, with no check of its kind or readability. -/
def planTasks (out : String) (fs : InputFS) : List PlannedTask :=
  if fs.rootExists && fs.rootIsDir then
    (fs.entries.filter (fun e => recognizedSuffix (entryName e))).map (mkTask out)
  else []

/-- The scratch directory of a task (line 159): the destination file
string with a fixed suffix appended. -/
def tempDirOf (t : PlannedTask) : String :=
  t.destFileStr ++ "_temp"

/-! ### Helper lemmas -/

/-- Successful cp437 encoding of a character is inverted by cp437
decoding of the resulting byte. -/
theorem cp437DecodeByte_of_encodeChar {c : Char} {b : Nat}
    (h : cp437EncodeChar c = some b) : cp437DecodeByte b = c := by
  unfold cp437EncodeChar at h
  have hp := List.find?_some h
  exact eq_of_beq hp

/-- Successful cp437 encoding of a string is inverted by cp437 decoding,
so the UnicodeDecodeError fallback of the repair block returns the stored
name unchanged. -/
theorem cp437_roundtrip : ∀ {name : List Char} {bytes : List Nat},
    cp437EncodeStr name = some bytes → cp437DecodeStr bytes = name := by
  intro name
  induction name with
  | nil =>
    intro bytes h
    simp only [cp437EncodeStr, Option.some.injEq] at h
    subst h
    rfl
  | cons c cs ih =>
    intro bytes h
    simp only [cp437EncodeStr] at h
    cases hc : cp437EncodeChar c with
    | none => rw [hc] at h; exact absurd h (by simp)
    | some b =>
      cases hcs : cp437EncodeStr cs with
      | none => rw [hc, hcs] at h; exact absurd h (by simp)
      | some bs =>
        rw [hc, hcs] at h
        simp only [Option.some.injEq] at h
        subst h
        simp only [cp437DecodeStr, List.map_cons]
        rw [cp437DecodeByte_of_encodeChar hc]
        have := ih hcs
        simp only [cp437DecodeStr] at this
        rw [this]

/-- Appending the same string on the right is injective. -/
theorem string_append_cancel_right {a b c : String} (h : a ++ c = b ++ c) :
    a = b := by
  cases a with
  | mk la =>
    cases b with
    | mk lb =>
      cases c with
      | mk lc =>
        have hd : la ++ lc = lb ++ lc := congrArg String.data h
        exact congrArg String.mk (List.append_cancel_right hd)

/-- An entry with a recognised suffix is planned whenever the root is a
directory that exists, whatever the kind or readability of the entry. -/
theorem mkTask_mem_planTasks (out : String) (fs : InputFS) (e : FSEntry)
    (hr : fs.rootExists = true) (hd : fs.rootIsDir = true)
    (he : e ∈ fs.entries) (hs : recognizedSuffix (entryName e) = true) :
    mkTask out e ∈ planTasks out fs := by
  simp only [planTasks, hr, hd, Bool.and_self, if_true]
  exact List.mem_map_of_mem _ (List.mem_filter.mpr ⟨he, hs⟩)

/-- Every dispatched task increments processed exactly once, whatever its
outcome — the increment at line 228 precedes every fallible step of the
task, and an exception escaping process_file is caught at the pool
boundary (lines 270-274) without undoing it. -/
theorem task_processed_once : ∀ (env : Env) (ext : DeclaredExt),
    (process_file env ext).processed = 1 := by
  decide

/-- A task whose quarantine copy would succeed when invoked settles its
counters: processed rises by one and exactly one of converted and failed
rises by one. -/
theorem copyOk_task_counts : ∀ (env : Env) (ext : DeclaredExt),
    env.copyOk = true →
    (process_file env ext).processed = 1 ∧
    (process_file env ext).converted + (process_file env ext).failed = 1 := by
  decide

/-- Batch counter totals for a batch in which no quarantine copy can
raise. -/
theorem copyOk_batch_sums : ∀ (tasks : List (Env × DeclaredExt)),
    (∀ t ∈ tasks, t.1.copyOk = true) →
    batchConverted tasks + batchFailed tasks = batchProcessed tasks ∧
    batchProcessed tasks = tasks.length := by
  intro tasks
  induction tasks with
  | nil =>
    intro _
    simp [batchConverted, batchFailed, batchProcessed]
  | cons t ts ih =>
    intro h
    have h1 := copyOk_task_counts t.1 t.2 (h t (List.mem_cons_self t ts))
    have h2 := ih (fun x hx => h x (List.mem_cons_of_mem t hx))
    simp only [batchConverted, batchFailed, batchProcessed, List.map_cons,
      List.sum_cons, List.length_cons] at h1 h2 ⊢
    omega

/-! ### Claims -/

/-- Claim C1 (code bug): the claim says an entry whose stored name
resolves outside the scratch directory is rejected with a path-traversal
error and the task ends quarantined. The containment check of
safe_extract (line 141) compares unnormalised absolute-path strings, and
Path.absolute does not collapse double-dot components, so the relative
entry name dotdot-slash-evil joined under scratch /t/out.cbz_temp passes
the startswith test although it resolves to /t/evil, which is not a
descendant of the scratch directory: the entry is accepted, no
path-traversal error is raised, and extraction proceeds. -/
theorem c1_guard_misses_dotdot_escape :
    extractGuardAccepts ⟨true, []⟩ "/t/out.cbz_temp" ("../evil".data) = true ∧
    resolveParts (storedEntryTarget "/t/out.cbz_temp" ("../evil".data)).parts
      = ["t", "evil"] ∧
    isDescendantOf (storedEntryTarget "/t/out.cbz_temp" ("../evil".data))
      (parsePath "/t/out.cbz_temp") = false := by
  decide

/-- Environment of a planned source whose quarantine copy raises when
invoked — a directory whose name ends in .cbz (IsADirectoryError), or an
unreadable regular file (PermissionError); in both cases the validators
also fail, since opening the source for validation fails. -/
def c2CopyFailEnv : Env :=
  { validZip := false, validRar := false, rarExtractOk := false,
    zipExtractOk := false, repackOk := false, copyOk := false }

/-- Counterexample to claim C2 as stated: for a planned task whose
quarantine copy raises (a directory admitted by planning, or an
unreadable regular file), processed rises by one but neither converted
nor failed rises — the copy in the validation-failure branch of
process_file raises before the failed increment and the exception escapes
to the pool boundary, so converted + failed falls short of processed. -/
theorem c2_counters_counterexample :
    (process_file c2CopyFailEnv .cbz).processed = 1 ∧
    (process_file c2CopyFailEnv .cbz).converted
      + (process_file c2CopyFailEnv .cbz).failed = 0 ∧
    (process_file c2CopyFailEnv .cbz).retval = none := by
  decide

/-- Claim C2 (amended): every task whose quarantine copy would succeed if
invoked — its source is a readable regular file and the quarantine
destination is writable — increments processed exactly once and exactly
one of converted and failed exactly once; hence for a batch in which no
quarantine copy can raise, the totals satisfy converted + failed =
processed = number of planned tasks. -/
theorem c2_counters_amended (tasks : List (Env × DeclaredExt))
    (h : ∀ t ∈ tasks, t.1.copyOk = true) :
    (∀ t ∈ tasks, (process_file t.1 t.2).processed = 1 ∧
      (process_file t.1 t.2).converted + (process_file t.1 t.2).failed = 1) ∧
    batchConverted tasks + batchFailed tasks = batchProcessed tasks ∧
    batchProcessed tasks = tasks.length :=
  ⟨fun t ht => copyOk_task_counts t.1 t.2 (h t ht), copyOk_batch_sums tasks h⟩

/-- A two-task batch in which no quarantine copy can raise: one task
converts, one is quarantined. -/
def c2DemoTasks : List (Env × DeclaredExt) :=
  [({ validZip := true, validRar := false, rarExtractOk := false,
      zipExtractOk := true, repackOk := true, copyOk := true }, .cbz),
   ({ validZip := false, validRar := false, rarExtractOk := false,
      zipExtractOk := false, repackOk := false, copyOk := true }, .cbr)]

set_option maxRecDepth 4000 in
/-- Witness for claim C2 (amended) at a concrete two-task batch. -/
theorem c2_counters_amended_witness :
    batchConverted c2DemoTasks + batchFailed c2DemoTasks = batchProcessed c2DemoTasks ∧
    batchProcessed c2DemoTasks = c2DemoTasks.length :=
  (c2_counters_amended c2DemoTasks (by decide)).2

/-- Claim C3: a CBR-declared source whose content is a structurally valid
ZIP archive (ZIP validation, ZIP extraction and the repack step succeed)
converts: the task returns true with the destination archive written, the
converted counter rises and nothing is quarantined — whatever the RAR
validator and RAR extraction did. -/
theorem c3_misnamed_cbr_converts (env : Env) (hz : env.validZip = true)
    (he : env.zipExtractOk = true) (hrp : env.repackOk = true) :
    (process_file env .cbr).retval = some true ∧
    (process_file env .cbr).destWritten = true ∧
    (process_file env .cbr).converted = 1 ∧
    (process_file env .cbr).failed = 0 ∧
    (process_file env .cbr).quarantineWritten = false := by
  revert env
  decide

/-- Environment of a file named .cbr holding a valid ZIP payload: RAR
validation and extraction fail, everything ZIP-based succeeds. -/
def c3Env : Env :=
  { validZip := true, validRar := false, rarExtractOk := false,
    zipExtractOk := true, repackOk := true, copyOk := true }

/-- Witness for claim C3 at a concrete misnamed archive. -/
theorem c3_misnamed_cbr_converts_witness :
    (process_file c3Env .cbr).retval = some true ∧
    (process_file c3Env .cbr).destWritten = true ∧
    (process_file c3Env .cbr).converted = 1 ∧
    (process_file c3Env .cbr).failed = 0 ∧
    (process_file c3Env .cbr).quarantineWritten = false :=
  c3_misnamed_cbr_converts c3Env rfl rfl rfl

/-- Environment of a regular file that is a valid RAR archive misnamed
with the .cbz extension. -/
def c4Env : Env :=
  { validZip := false, validRar := true, rarExtractOk := true,
    zipExtractOk := true, repackOk := true, copyOk := true }

/-- Counterexample to claim C4 as stated: a ZIP-declared file failing ZIP
validation is quarantined immediately — the RAR validator is never
invoked even though it would succeed, and conversion is never attempted,
so it is not true that only failure of both formats leads to quarantine. -/
theorem c4_zip_declared_not_probed :
    c4Env.validRar = true ∧
    (process_file c4Env .cbz).rarChecks = 0 ∧
    (process_file c4Env .cbz).failed = 1 ∧
    (process_file c4Env .cbz).convertCalled = false := by
  decide

/-- Claim C4 (amended): the alternate-format probe is one-directional. A
ZIP-declared task never invokes the RAR validator and proceeds to
conversion exactly when ZIP validation succeeds; a RAR-declared task
proceeds to conversion exactly when RAR validation or the alternate ZIP
probe succeeds, and only failure of both quarantines it at the
validation stage. -/
theorem c4_validation_gate_amended (env : Env) :
    (process_file env .cbz).rarChecks = 0 ∧
    (process_file env .cbz).convertCalled = env.validZip ∧
    (process_file env .cbr).convertCalled = (env.validRar || env.validZip) := by
  revert env
  decide

/-- Stored entry name whose characters are the cp437 decoding of the
UTF-8 bytes of the single character e-acute (the mojibake case the repair
heuristic exists for). -/
def c5Stored : List Char := [Char.ofNat 0x251C, Char.ofNat 0x2310]

/-- Claim C5 (code bug): the claim says entry bytes are streamed to the
scratch directory joined with the repaired name. The repair block indeed
turns the mojibake stored name into e-acute, and line 138 computes that
candidate path — but line 148 calls archive.extract(info, temp_dir),
which derives the written path from the unrepaired stored name, so the
bytes land at a different path than the computed candidate. -/
theorem c5_extract_ignores_repaired_name :
    repairFilename c5Stored = ['é'] ∧
    pyStr (storedEntryTarget "/t/x.cbz_temp" c5Stored) = "/t/x.cbz_temp/é" ∧
    pyStr (libraryExtractTarget "/t/x.cbz_temp" c5Stored) = "/t/x.cbz_temp/├⌐" ∧
    pyStr (libraryExtractTarget "/t/x.cbz_temp" c5Stored) ≠
      pyStr (storedEntryTarget "/t/x.cbz_temp" c5Stored) := by
  decide

/-- Claim C6: for every task that reaches conversion — whichever way the
environment makes it end: success, extraction failure, repack failure, or
an escaping unexpected error — the scratch directory no longer exists
when the call returns, thanks to the finally clause at lines 220-223. -/
theorem c6_scratch_removed (env : Env) (ext : DeclaredExt) :
    (convert_to_cbz env ext).tempExists = false ∧
    (process_file env ext).tempExists = false := by
  revert env ext
  decide

/-- Input tree holding two source files that differ only in extension,
targeting the same output stem. -/
def c7FS : InputFS :=
  { rootExists := true, rootIsDir := true,
    entries := [{ relParts := ["a", "1.cbz"], kind := .file, readable := true },
                { relParts := ["a", "1.cbr"], kind := .file, readable := true }] }

/-- Counterexample to claim C7 as stated: the two distinct tasks planned
for a/1.cbz and a/1.cbr share the same destination file and hence the
same scratch directory string — the fixed suffix distinguishes the
scratch directory from the destination file, not one task from another. -/
theorem c7_shared_scratch_counterexample :
    planTasks "out" c7FS =
      [mkTask "out" { relParts := ["a", "1.cbz"], kind := .file, readable := true },
       mkTask "out" { relParts := ["a", "1.cbr"], kind := .file, readable := true }] ∧
    mkTask "out" { relParts := ["a", "1.cbz"], kind := .file, readable := true } ≠
      mkTask "out" { relParts := ["a", "1.cbr"], kind := .file, readable := true } ∧
    tempDirOf (mkTask "out" { relParts := ["a", "1.cbz"], kind := .file, readable := true }) =
      tempDirOf (mkTask "out" { relParts := ["a", "1.cbr"], kind := .file, readable := true }) := by
  decide

/-- Claim C7 (amended): the scratch directory is the destination file
string plus a fixed suffix, so it is injective in the destination path —
tasks with distinct destination files get distinct scratch directories,
while tasks sharing an output stem (such as 1.cbz and 1.cbr in one
directory) share one scratch directory. -/
theorem c7_scratch_determined_by_dest (t u : PlannedTask)
    (h : t.destFileStr ≠ u.destFileStr) :
    tempDirOf t ≠ tempDirOf u := by
  intro he
  unfold tempDirOf at he
  exact h (string_append_cancel_right he)

/-- Witness for claim C7 (amended) at two tasks with distinct
destinations. -/
theorem c7_scratch_determined_by_dest_witness :
    tempDirOf (mkTask "out" { relParts := ["a", "1.cbz"], kind := .file, readable := true }) ≠
    tempDirOf (mkTask "out" { relParts := ["b", "2.cbz"], kind := .file, readable := true }) :=
  c7_scratch_determined_by_dest _ _ (by decide)

/-- Claim C8: the filename repair is a total function that behaves as a
prioritised strategy list: when the cp437 re-encoding of the stored name
decodes as UTF-8, that reinterpretation is the result; when re-encoding
raises (the stored name leaves the code page) the stored name is kept;
and when the re-encoded bytes are not UTF-8, the cp437 round trip
returns the stored name unchanged — so every fallback is the raw stored
name and no branch can raise. -/
theorem c8_repair_priority (stored : List Char) :
    (∀ bytes cps, cp437EncodeStr stored = some bytes →
      utf8DecodeChars bytes = some cps → repairFilename stored = cps) ∧
    (cp437EncodeStr stored = none → repairFilename stored = stored) ∧
    (∀ bytes, cp437EncodeStr stored = some bytes →
      utf8DecodeChars bytes = none → repairFilename stored = stored) := by
  refine ⟨?_, ?_, ?_⟩
  · intro bytes cps h1 h2
    simp [repairFilename, h1, h2]
  · intro h
    simp [repairFilename, h]
  · intro bytes h1 h2
    simp only [repairFilename, h1, h2]
    exact cp437_roundtrip h1

/-- Witness for claim C8: on the mojibake name the first strategy wins
and yields e-acute. -/
theorem c8_repair_priority_witness :
    repairFilename [Char.ofNat 0x251C, Char.ofNat 0x2310] = ['é'] :=
  (c8_repair_priority _).1 [0xC3, 0xA9] ['é'] (by decide) (by decide)

/-- Input tree whose root is missing (entries record what rglob would
have yielded were the root a readable directory). -/
def c9BadRootFS : InputFS :=
  { rootExists := false, rootIsDir := true,
    entries := [{ relParts := ["a.cbz"], kind := .file, readable := true }] }

/-- Input tree with one unreadable candidate file under a good root. -/
def c9UnreadableFS : InputFS :=
  { rootExists := true, rootIsDir := true,
    entries := [{ relParts := ["a.cbz"], kind := .file, readable := false }] }

/-- Counterexample to claim C9 as stated: with a missing input root,
planning completes normally with an empty task list — rglob yields
nothing rather than raising, so no PlanningError-style failure occurs;
and an unreadable file is not skipped with a warning: it is planned like
any other matching entry. -/
theorem c9_planning_counterexample :
    planTasks "out" c9BadRootFS = [] ∧
    mkTask "out" { relParts := ["a.cbz"], kind := .file, readable := false }
      ∈ planTasks "out" c9UnreadableFS ∧
    ({ relParts := ["a.cbz"], kind := .file, readable := false } : FSEntry).readable
      = false := by
  decide

/-- Environment of a planned but unreadable regular source: every open of
the source fails, so the validators return false and the quarantine copy
raises. -/
def c9UnreadableEnv : Env :=
  { validZip := false, validRar := false, rarExtractOk := false,
    zipExtractOk := false, repackOk := false, copyOk := false }

/-- Claim C9 (amended): planning never fails — when the input root does
not exist or is not a directory it silently yields no tasks (the run then
completes with zero files processed) and no PlanningError exists — and
individual unreadable files are not skipped at planning and get no
planning-time warning: any enumerated entry with a recognised suffix is
planned regardless of readability. Such a file fails during processing
instead, where its exception is caught at the pool boundary, so the batch
is not aborted: every dispatched task, the unreadable one included, still
increments processed exactly once (it is not quarantined — the quarantine
copy itself raises). -/
theorem c9_planning_amended (out : String) (fs : InputFS) :
    ((fs.rootExists = false ∨ fs.rootIsDir = false) → planTasks out fs = []) ∧
    (∀ e, e ∈ fs.entries → fs.rootExists = true → fs.rootIsDir = true →
      recognizedSuffix (entryName e) = true → mkTask out e ∈ planTasks out fs) ∧
    (∀ (env : Env) (ext : DeclaredExt), (process_file env ext).processed = 1) := by
  refine ⟨?_, ?_, task_processed_once⟩
  · intro h
    unfold planTasks
    rcases h with h | h <;> simp [h]
  · intro e he hr hd hs
    exact mkTask_mem_planTasks out fs e hr hd he hs

/-- Witness for claim C9 (amended): the missing-root tree plans nothing;
the unreadable candidate is planned; processing it still increments
processed exactly once. -/
theorem c9_planning_amended_witness :
    planTasks "out" c9BadRootFS = [] ∧
    mkTask "out" { relParts := ["a.cbz"], kind := .file, readable := false }
      ∈ planTasks "out" c9UnreadableFS ∧
    (process_file c9UnreadableEnv .cbz).processed = 1 :=
  ⟨(c9_planning_amended "out" c9BadRootFS).1 (Or.inl rfl),
   (c9_planning_amended "out" c9UnreadableFS).2.1 _ (by decide) rfl rfl (by decide),
   (c9_planning_amended "out" c9BadRootFS).2.2 c9UnreadableEnv .cbz⟩

/-- Input tree holding a directory whose name ends in .cbz. -/
def c10FS : InputFS :=
  { rootExists := true, rootIsDir := true,
    entries := [{ relParts := ["x.cbz"], kind := .dir, readable := true }] }

/-- Counterexample to claim C10 as stated: planning filters on the
lower-cased suffix alone, with no regular-file check, so a directory
named x.cbz is planned as a task. -/
theorem c10_directory_planned_counterexample :
    planTasks "out" c10FS =
      [mkTask "out" { relParts := ["x.cbz"], kind := .dir, readable := true }] ∧
    ({ relParts := ["x.cbz"], kind := .dir, readable := true } : FSEntry).kind
      ≠ EntryKind.file := by
  decide

/-- Claim C10 (amended): under an existing directory root, an enumerated
entry is planned exactly when its lower-cased suffix is one of the two
recognised archive extensions — for entries of every kind, directories
included, since the source performs no regular-file check. -/
theorem c10_plan_filter_amended (out : String) (fs : InputFS) (e : FSEntry)
    (hr : fs.rootExists = true) (hd : fs.rootIsDir = true) (he : e ∈ fs.entries) :
    mkTask out e ∈ planTasks out fs ↔ recognizedSuffix (entryName e) = true := by
  constructor
  · intro hmem
    simp only [planTasks, hr, hd, Bool.and_self, if_true] at hmem
    obtain ⟨x, hx, hxe⟩ := List.mem_map.mp hmem
    obtain ⟨hxmem, hp⟩ := List.mem_filter.mp hx
    have hparts : x.relParts = e.relParts := congrArg PlannedTask.srcParts hxe
    have hname : entryName x = entryName e := by
      unfold entryName
      rw [hparts]
    rwa [hname] at hp
  · exact mkTask_mem_planTasks out fs e hr hd he

/-- Witness for claim C10 (amended) at the directory entry of the
counterexample tree. -/
theorem c10_plan_filter_amended_witness :
    mkTask "out" { relParts := ["x.cbz"], kind := .dir, readable := true }
        ∈ planTasks "out" c10FS ↔
      recognizedSuffix
        (entryName { relParts := ["x.cbz"], kind := .dir, readable := true }) = true :=
  c10_plan_filter_amended "out" c10FS _ rfl rfl (by decide)

end ComicsConv
